import Mathlib

/- Formal verification of the unscented Kalman filter in src/ukf.cpp.

   The C++ floating-point state is embedded over the real numbers: the 5-dim
   state vector is `Fin 5 → ℝ`, covariances are Mathlib matrices, the 15
   sigma-point columns are indexed by the natural loop counter `i = 0..14`
   exactly as in the source loops.  Eigen's `P_aug.llt().matrixL()` (a Cholesky
   factor of the augmented covariance) is modelled by passing the factor `L`
   explicitly to `Prediction`/`ProcessMeasurement`; theorems that depend on a
   concrete factor also certify `L * Lᵀ = P_aug` for the state at hand. -/

noncomputable section
/-- Augmented state dimension `n_aug_ = n_x_ + 2 = 7` (ukf.cpp line 62),
as a real number because it only enters real arithmetic. -/
def n_aug_ : ℝ := 7

/-- Sigma point spreading parameter `lambda_ = 3 - n_aug_` (ukf.cpp line 65). -/
def lambda_ : ℝ := 3 - n_aug_

/-- Sigma-point weights set once in the constructor (ukf.cpp lines 71-75):
`weights_(0) = lambda_/(lambda_+n_aug_)`, all others `0.5/(lambda_+n_aug_)`.
Indexed by the loop counter. -/
def weightsN (i : ℕ) : ℝ :=
  if i = 0 then lambda_ / (lambda_ + n_aug_) else 0.5 / (lambda_ + n_aug_)

/-- Factor `sqrt(lambda_ + n_aug_)` from ukf.cpp line 184. -/
def sqrt_lambda_n_aug : ℝ := Real.sqrt (lambda_ + n_aug_)

/-- First half of the angle-normalization idiom
`while (a > M_PI) a -= 2.*M_PI;` (ukf.cpp lines 257, 325, 338, 396, ...). -/
def wrapDown (x : ℝ) : ℝ :=
  if h : Real.pi < x then wrapDown (x - 2 * Real.pi) else x
termination_by (⌈(x - Real.pi) / (2 * Real.pi)⌉).toNat
decreasing_by
  have hpi := Real.pi_pos
  have h2 : (0 : ℝ) < 2 * Real.pi := by linarith
  have hkey : (x - 2 * Real.pi - Real.pi) / (2 * Real.pi)
      = (x - Real.pi) / (2 * Real.pi) - 1 := by field_simp; ring
  rw [hkey, show (1 : ℝ) = ((1 : ℤ) : ℝ) by norm_num, Int.ceil_sub_int]
  have hpos : 0 < ⌈(x - Real.pi) / (2 * Real.pi)⌉ :=
    Int.ceil_pos.mpr (div_pos (by linarith) h2)
  omega

/-- Second half of the angle-normalization idiom
`while (a < -M_PI) a += 2.*M_PI;` (ukf.cpp lines 258, 326, 339, 397, ...). -/
def wrapUp (x : ℝ) : ℝ :=
  if h : x < -Real.pi then wrapUp (x + 2 * Real.pi) else x
termination_by (⌈(-Real.pi - x) / (2 * Real.pi)⌉).toNat
decreasing_by
  have hpi := Real.pi_pos
  have h2 : (0 : ℝ) < 2 * Real.pi := by linarith
  have hkey : (-Real.pi - (x + 2 * Real.pi)) / (2 * Real.pi)
      = (-Real.pi - x) / (2 * Real.pi) - 1 := by field_simp; ring
  rw [hkey, show (1 : ℝ) = ((1 : ℤ) : ℝ) by norm_num, Int.ceil_sub_int]
  have hpos : 0 < ⌈(-Real.pi - x) / (2 * Real.pi)⌉ :=
    Int.ceil_pos.mpr (div_pos (by linarith) h2)
  omega

/-- The two consecutive while loops of the angle-normalization idiom. -/
def normalizeAngle (x : ℝ) : ℝ := wrapUp (wrapDown x)

/-- Column index `c` into the 7-column factor `L`, from the loop counter.
All uses keep `c ≤ 6`, the `% 7` only makes the function total. -/
def col7 (c : ℕ) : Fin 7 := ⟨c % 7, Nat.mod_lt c (by norm_num)⟩

/-- Augmented mean state (ukf.cpp lines 169-171): the state mean padded with
two zero process-noise components. -/
def augMean (x : Fin 5 → ℝ) : Fin 7 → ℝ :=
  fun j => if h : j.val < 5 then x ⟨j.val, h⟩ else 0

/-- Augmented sigma points (ukf.cpp lines 183-188): column 0 is the augmented
mean; for `i = 0..6`, column `i+1` is `x_aug + sqrt(lambda_+n_aug_)·L.col(i)`
and column `i+1+7` is `x_aug - sqrt(lambda_+n_aug_)·L.col(i)`.  Indexed by the
loop counter; indices `≥ 15` never occur in any sum. -/
def XsigAug (xa : Fin 7 → ℝ) (L : Matrix (Fin 7) (Fin 7) ℝ) (i : ℕ) :
    Fin 7 → ℝ :=
  if i = 0 then xa
  else if i ≤ 7 then fun j => xa j + sqrt_lambda_n_aug * L j (col7 (i - 1))
  else fun j => xa j - sqrt_lambda_n_aug * L j (col7 (i - 1 - 7))

/-- Turn-rate motion model applied to one augmented sigma point
(ukf.cpp lines 196-236), including the `fabs(yawd) > 0.001` guard and the
process-noise injection. -/
def motionModel (pt : Fin 7 → ℝ) (delta_t : ℝ) : Fin 5 → ℝ :=
  let p_x := pt 0
  let p_y := pt 1
  let v := pt 2
  let yaw := pt 3
  let yawd := pt 4
  let nu_a := pt 5
  let nu_yawdd := pt 6
  let px_p := (if 0.001 < |yawd| then
      p_x + v / yawd * (Real.sin (yaw + yawd * delta_t) - Real.sin yaw)
    else p_x + v * delta_t * Real.cos yaw)
    + 0.5 * nu_a * delta_t * delta_t * Real.cos yaw
  let py_p := (if 0.001 < |yawd| then
      p_y + v / yawd * (Real.cos yaw - Real.cos (yaw + yawd * delta_t))
    else p_y + v * delta_t * Real.sin yaw)
    + 0.5 * nu_a * delta_t * delta_t * Real.sin yaw
  let v_p := v + nu_a * delta_t
  let yaw_p := yaw + yawd * delta_t + 0.5 * nu_yawdd * delta_t * delta_t
  let yawd_p := yawd + nu_yawdd * delta_t
  ![px_p, py_p, v_p, yaw_p, yawd_p]

/-- Filter state: the member variables of class UKF (ukf.h / ukf.cpp). -/
structure UKFState where
  use_laser : Bool
  use_radar : Bool
  x : Fin 5 → ℝ
  P : Matrix (Fin 5) (Fin 5) ℝ
  std_a : ℝ
  std_yawdd : ℝ
  std_laspx : ℝ
  std_laspy : ℝ
  std_radr : ℝ
  std_radphi : ℝ
  std_radrd : ℝ
  is_initialized : Bool
  Xsig_pred : ℕ → Fin 5 → ℝ
  time_us : ℤ

/-- The UKF constructor (ukf.cpp lines 12-77).  `x_`, `P_`, `Xsig_pred_` and
`time_us_` are allocated but not initialized in C++, so their indeterminate
initial contents are taken as parameters. -/
def UKF_construct (x0 : Fin 5 → ℝ) (P0 : Matrix (Fin 5) (Fin 5) ℝ)
    (Xp0 : ℕ → Fin 5 → ℝ) (t0 : ℤ) : UKFState where
  use_laser := true
  use_radar := true
  x := x0
  P := P0
  std_a := 1
  std_yawdd := 1
  std_laspx := 0.15
  std_laspy := 0.15
  std_radr := 0.3
  std_radphi := 0.03
  std_radrd := 0.3
  is_initialized := false
  Xsig_pred := Xp0
  time_us := t0

/-- Augmented covariance built in ukf.cpp lines 174-177: state covariance in
the top-left block, `std_a_²` and `std_yawdd_²` on the two extra diagonal
entries, zero elsewhere. -/
def P_aug (s : UKFState) : Matrix (Fin 7) (Fin 7) ℝ :=
  fun r c =>
    if hr : r.val < 5 then
      (if hc : c.val < 5 then s.P ⟨r.val, hr⟩ ⟨c.val, hc⟩ else 0)
    else if r.val = 5 ∧ c.val = 5 then s.std_a * s.std_a
    else if r.val = 6 ∧ c.val = 6 then s.std_yawdd * s.std_yawdd
    else 0

/-- Predicted sigma points `Xsig_pred_` (ukf.cpp lines 196-237): each augmented
sigma-point column pushed through the motion model. -/
def PredXsig (x5 : Fin 5 → ℝ) (L : Matrix (Fin 7) (Fin 7) ℝ) (dt : ℝ)
    (i : ℕ) : Fin 5 → ℝ :=
  motionModel (XsigAug (augMean x5) L i) dt

/-- Predicted state mean (ukf.cpp lines 246-249). -/
def PredMean (x5 : Fin 5 → ℝ) (L : Matrix (Fin 7) (Fin 7) ℝ) (dt : ℝ) :
    Fin 5 → ℝ :=
  fun j => ∑ i ∈ Finset.range 15, weightsN i * PredXsig x5 L dt i j

/-- Angle normalization of component 3 of a state difference
(ukf.cpp lines 256-258, 325-326, 428-429). -/
def angNorm3 (d : Fin 5 → ℝ) : Fin 5 → ℝ :=
  Function.update d 3 (normalizeAngle (d 3))

/-- Predicted state covariance (ukf.cpp lines 251-261): weighted sum of outer
products of angle-normalized deviations from the predicted mean. -/
def PredCov (x5 : Fin 5 → ℝ) (L : Matrix (Fin 7) (Fin 7) ℝ) (dt : ℝ) :
    Matrix (Fin 5) (Fin 5) ℝ :=
  ∑ i ∈ Finset.range 15, weightsN i •
    Matrix.vecMulVec
      (angNorm3 (fun j => PredXsig x5 L dt i j - PredMean x5 L dt j))
      (angNorm3 (fun j => PredXsig x5 L dt i j - PredMean x5 L dt j))

/-- `UKF::Prediction` (ukf.cpp lines 154-264).  `L` stands for the Cholesky
factor `P_aug.llt().matrixL()` computed at line 180. -/
def Prediction (s : UKFState) (L : Matrix (Fin 7) (Fin 7) ℝ) (dt : ℝ) :
    UKFState :=
  { s with
    x := PredMean s.x L dt
    P := PredCov s.x L dt
    Xsig_pred := PredXsig s.x L dt }

/-- Sensor type tag of MeasurementPackage. -/
inductive SensorType where
  | LASER : SensorType
  | RADAR : SensorType
deriving DecidableEq

/-- One observation (MeasurementPackage): sensor type, timestamp, and the raw
measurement vector, indexed like Eigen's `raw_measurements_(k)` (2 entries are
read for laser, 3 for radar). -/
structure Meas where
  sensor : SensorType
  timestamp : ℤ
  raw : ℕ → ℝ

/-- atan2 of the C standard library, as the argument of the complex number
`x + y·i`. -/
def atan2 (y x : ℝ) : ℝ := Complex.arg ⟨x, y⟩

/-- Lidar measurement-space sigma points (ukf.cpp lines 280-286): the first
two state components of each predicted sigma point. -/
def lidarZsig (Xp : ℕ → Fin 5 → ℝ) (i : ℕ) : Fin 2 → ℝ :=
  ![Xp i 0, Xp i 1]

/-- Lidar mean predicted measurement `z_pred` (ukf.cpp lines 289-292). -/
def lidar_zpred (Xp : ℕ → Fin 5 → ℝ) : Fin 2 → ℝ :=
  fun j => ∑ i ∈ Finset.range 15, weightsN i * lidarZsig Xp i j

/-- Lidar measurement residual of one sigma point (ukf.cpp lines 298, 320):
no angle normalization is applied here. -/
def lidar_zdiff (Xp : ℕ → Fin 5 → ℝ) (i : ℕ) : Fin 2 → ℝ :=
  fun j => lidarZsig Xp i j - lidar_zpred Xp j

/-- Lidar measurement noise covariance `R` (ukf.cpp lines 304-306). -/
def lidarR (s : UKFState) : Matrix (Fin 2) (Fin 2) ℝ :=
  !![s.std_laspx * s.std_laspx, 0; 0, s.std_laspy * s.std_laspy]

/-- Lidar innovation covariance `S` (ukf.cpp lines 295-307). -/
def lidarS (s : UKFState) : Matrix (Fin 2) (Fin 2) ℝ :=
  (∑ i ∈ Finset.range 15, weightsN i •
    Matrix.vecMulVec (lidar_zdiff s.Xsig_pred i) (lidar_zdiff s.Xsig_pred i))
  + lidarR s

/-- Lidar cross-correlation `Tc` (ukf.cpp lines 317-329): state difference is
angle-normalized in component 3, the lidar measurement residual is not. -/
def lidarTc (s : UKFState) : Matrix (Fin 5) (Fin 2) ℝ :=
  ∑ i ∈ Finset.range 15, weightsN i •
    Matrix.vecMulVec (angNorm3 (fun j => s.Xsig_pred i j - s.x j))
      (lidar_zdiff s.Xsig_pred i)

/-- Lidar Kalman gain `K = Tc * S.inverse()` (ukf.cpp line 332). -/
def lidarK (s : UKFState) : Matrix (Fin 5) (Fin 2) ℝ :=
  lidarTc s * (lidarS s)⁻¹

/-- Lidar innovation (ukf.cpp lines 335-339): the raw observation minus the
predicted measurement mean, with the while-loop angle normalization applied to
component 1 — i.e. to the y-position residual. -/
def lidarInnov (raw : ℕ → ℝ) (zp : Fin 2 → ℝ) : Fin 2 → ℝ :=
  Function.update (fun j => raw j.val - zp j) 1 (normalizeAngle (raw 1 - zp 1))

/-- `UKF::UpdateLidar` (ukf.cpp lines 266-350): state mean and covariance
update `x += K·z_diff`, `P -= K·S·Kᵀ`. -/
def UpdateLidar (s : UKFState) (m : Meas) : UKFState :=
  { s with
    x := s.x + (lidarK s).mulVec (lidarInnov m.raw (lidar_zpred s.Xsig_pred))
    P := s.P - lidarK s * lidarS s * (lidarK s).transpose }

/-- Radar measurement-space sigma points (ukf.cpp lines 366-381):
`(r, phi, r_dot)` projection of each predicted sigma point. -/
def radarZsig (Xp : ℕ → Fin 5 → ℝ) (i : ℕ) : Fin 3 → ℝ :=
  let p_x := Xp i 0
  let p_y := Xp i 1
  let v := Xp i 2
  let yaw := Xp i 3
  let v1 := Real.cos yaw * v
  let v2 := Real.sin yaw * v
  ![Real.sqrt (p_x * p_x + p_y * p_y),
    atan2 p_y p_x,
    (p_x * v1 + p_y * v2) / Real.sqrt (p_x * p_x + p_y * p_y)]

/-- Radar mean predicted measurement (ukf.cpp lines 384-387). -/
def radar_zpred (Xp : ℕ → Fin 5 → ℝ) : Fin 3 → ℝ :=
  fun j => ∑ i ∈ Finset.range 15, weightsN i * radarZsig Xp i j

/-- Angle normalization of component 1 of a radar residual
(ukf.cpp lines 396-397, 422-423, 441-442). -/
def angNorm1 (d : Fin 3 → ℝ) : Fin 3 → ℝ :=
  Function.update d 1 (normalizeAngle (d 1))

/-- Radar residual of one sigma point with bearing normalization
(ukf.cpp lines 393-397). -/
def radar_zdiff (Xp : ℕ → Fin 5 → ℝ) (i : ℕ) : Fin 3 → ℝ :=
  angNorm1 (fun j => radarZsig Xp i j - radar_zpred Xp j)

/-- Radar measurement noise covariance `R` (ukf.cpp lines 403-406). -/
def radarR (s : UKFState) : Matrix (Fin 3) (Fin 3) ℝ :=
  !![s.std_radr * s.std_radr, 0, 0;
     0, s.std_radphi * s.std_radphi, 0;
     0, 0, s.std_radrd * s.std_radrd]

/-- Radar innovation covariance `S` (ukf.cpp lines 390-407). -/
def radarS (s : UKFState) : Matrix (Fin 3) (Fin 3) ℝ :=
  (∑ i ∈ Finset.range 15, weightsN i •
    Matrix.vecMulVec (radar_zdiff s.Xsig_pred i) (radar_zdiff s.Xsig_pred i))
  + radarR s

/-- Radar cross-correlation `Tc` (ukf.cpp lines 417-432). -/
def radarTc (s : UKFState) : Matrix (Fin 5) (Fin 3) ℝ :=
  ∑ i ∈ Finset.range 15, weightsN i •
    Matrix.vecMulVec (angNorm3 (fun j => s.Xsig_pred i j - s.x j))
      (radar_zdiff s.Xsig_pred i)

/-- Radar Kalman gain (ukf.cpp line 435). -/
def radarK (s : UKFState) : Matrix (Fin 5) (Fin 3) ℝ :=
  radarTc s * (radarS s)⁻¹

/-- Radar innovation (ukf.cpp lines 438-442) with bearing normalization. -/
def radarInnov (raw : ℕ → ℝ) (zp : Fin 3 → ℝ) : Fin 3 → ℝ :=
  Function.update (fun j => raw j.val - zp j) 1 (normalizeAngle (raw 1 - zp 1))

/-- `UKF::UpdateRadar` (ukf.cpp lines 352-453). -/
def UpdateRadar (s : UKFState) (m : Meas) : UKFState :=
  { s with
    x := s.x + (radarK s).mulVec (radarInnov m.raw (radar_zpred s.Xsig_pred))
    P := s.P - radarK s * radarS s * (radarK s).transpose }

/-- State covariance written by the laser initialization branch
(ukf.cpp lines 97-101). -/
def P_init_laser : Matrix (Fin 5) (Fin 5) ℝ :=
  !![0.01, 0, 0, 0, 0;
     0, 0.01, 0, 0, 0;
     0, 0, 1, 0, 0;
     0, 0, 0, 1, 0;
     0, 0, 0, 0, 1]

/-- State covariance written by the radar initialization branch
(ukf.cpp lines 118-122). -/
def P_init_radar : Matrix (Fin 5) (Fin 5) ℝ :=
  !![0.01, 0, 0, 0, 0;
     0, 0.01, 0, 0, 0;
     0, 0, 0.01, 0, 0;
     0, 0, 0, 0.09, 0;
     0, 0, 0, 0, 0.09]

/-- `UKF::ProcessMeasurement` (ukf.cpp lines 81-150).  On the first call the
initialization block runs (`x_.fill(0)`, the two guarded sensor branches —
note the laser branch also assigns `use_radar_ = false` at line 91 — then
`is_initialized_ = true; return`).  Afterwards each call computes
`dt = (timestamp − time_us_)/1e6`, runs `Prediction(dt)` with the Cholesky
factor `L`, dispatches on the sensor type alone, and stores the timestamp. -/
def ProcessMeasurement (s : UKFState) (L : Matrix (Fin 7) (Fin 7) ℝ)
    (m : Meas) : UKFState :=
  if s.is_initialized = false then
    let s1 : UKFState := { s with time_us := m.timestamp, x := fun _ => 0 }
    let s2 : UKFState :=
      if m.sensor = SensorType.LASER ∧ s1.use_laser = true then
        { s1 with
          use_radar := false
          x := ![m.raw 0, m.raw 1, 0.2, 0, 0]
          P := P_init_laser }
      else s1
    let s3 : UKFState :=
      if m.sensor = SensorType.RADAR ∧ s2.use_radar = true then
        { s2 with
          x := ![m.raw 0 * Real.cos (m.raw 1), m.raw 0 * Real.sin (m.raw 1),
                 m.raw 2, m.raw 1, 0]
          P := P_init_radar }
      else s2
    { s3 with is_initialized := true }
  else
    let dt : ℝ := ((m.timestamp - s.time_us : ℤ) : ℝ) / 1000000
    let s1 := Prediction s L dt
    let s2 := if m.sensor = SensorType.LASER then UpdateLidar s1 m else s1
    let s3 := if m.sensor = SensorType.RADAR then UpdateRadar s2 m else s2
    { s3 with time_us := m.timestamp }

/-- Radar range-rate of one sigma point (ukf.cpp line 380) with the division
made observable: the C++ code computes
`(p_x*v1 + p_y*v2)/sqrt(p_x*p_x + p_y*p_y)` with no branch on the divisor;
a zero divisor (NaN in the C++ double arithmetic) is recorded as `none`. -/
def rdot_checked (p_x p_y v yaw : ℝ) : Option ℝ :=
  if Real.sqrt (p_x * p_x + p_y * p_y) = 0 then none
  else some ((p_x * (Real.cos yaw * v) + p_y * (Real.sin yaw * v))
    / Real.sqrt (p_x * p_x + p_y * p_y))

/-- Small positional/velocity spread used in the C7 counterexample state. -/
def eps7 : ℝ := 1 / 2000

/-- Heading spread chosen so that `sqrt(lambda_+n_aug_) * gg7 = π/2`. -/
def gg7 : ℝ := Real.pi / (2 * Real.sqrt 3)

/-- Process-noise standard deviation used in the C7 counterexample state. -/
def del7 : ℝ := 1 / 2000

/-- Lower-triangular matrix with positive diagonal: the unique Cholesky
factor of `P_aug s7` below. -/
def L7 : Matrix (Fin 7) (Fin 7) ℝ :=
  fun r c =>
    if r.val = c.val then
      (if r.val ≤ 2 then eps7 else if r.val = 3 then gg7 else del7)
    else if r.val = 3 ∧ c.val ≤ 2 then gg7 else 0

/-- The top-left 5×5 block of `L7 * L7ᵀ`: a symmetric positive-definite
state covariance. -/
def P7 : Matrix (Fin 5) (Fin 5) ℝ :=
  fun r c =>
    if r.val = c.val then
      (if r.val ≤ 2 then eps7 * eps7
       else if r.val = 3 then 4 * (gg7 * gg7) else del7 * del7)
    else if r.val = 3 ∧ c.val ≤ 2 then eps7 * gg7
    else if c.val = 3 ∧ r.val ≤ 2 then eps7 * gg7
    else 0

/-- Initialized state used in the C7 counterexample: unit speed, zero heading
and turn rate, covariance `P7`, small (tunable) process-noise standard
deviations `del7`. -/
def s7 : UKFState :=
  { UKF_construct ![0, 0, 1, 0, 0] P7 (fun _ _ => 0) 0 with
    std_a := del7
    std_yawdd := del7
    is_initialized := true }

/-- Symmetric positive-definite covariance `diag(1, 1/4, 1/4, 1/4, 1/4)` of
the C2 counterexample state. -/
def PC2 : Matrix (Fin 5) (Fin 5) ℝ :=
  fun r c => if r.val = c.val then (if r.val = 0 then 1 else 1 / 4) else 0

/-- Cholesky factor `diag(1, 1/2, 1/2, 1/2, 1/2, 1, 1)` of `P_aug sC2`. -/
def LC2 : Matrix (Fin 7) (Fin 7) ℝ :=
  fun r c =>
    if r.val = c.val then
      (if r.val = 0 then 1 else if r.val ≤ 4 then 1 / 2 else 1)
    else 0

/-- Initialized state with the laser sensor configured off, state mean zero
and covariance `PC2`. -/
def sC2 : UKFState :=
  { UKF_construct 0 PC2 (fun _ _ => 0) 0 with
    use_laser := false
    is_initialized := true }

/-- Lidar observation `(1, 1)` at the same timestamp as `sC2.time_us`. -/
def mC2 : Meas := ⟨SensorType.LASER, 0, fun _ => 1⟩

theorem wrapDown_le (x : ℝ) : wrapDown x ≤ Real.pi := by
  by_cases h : Real.pi < x
  · rw [wrapDown, dif_pos h]
    exact wrapDown_le (x - 2 * Real.pi)
  · rw [wrapDown, dif_neg h]
    exact not_lt.mp h
termination_by (⌈(x - Real.pi) / (2 * Real.pi)⌉).toNat
decreasing_by
  have hpi := Real.pi_pos
  have h2 : (0 : ℝ) < 2 * Real.pi := by linarith
  have hkey : (x - 2 * Real.pi - Real.pi) / (2 * Real.pi)
      = (x - Real.pi) / (2 * Real.pi) - 1 := by field_simp; ring
  rw [hkey, show (1 : ℝ) = ((1 : ℤ) : ℝ) by norm_num, Int.ceil_sub_int]
  have hpos : 0 < ⌈(x - Real.pi) / (2 * Real.pi)⌉ :=
    Int.ceil_pos.mpr (div_pos (by linarith) h2)
  omega

theorem wrapUp_ge (x : ℝ) : -Real.pi ≤ wrapUp x := by
  by_cases h : x < -Real.pi
  · rw [wrapUp, dif_pos h]
    exact wrapUp_ge (x + 2 * Real.pi)
  · rw [wrapUp, dif_neg h]
    exact not_lt.mp h
termination_by (⌈(-Real.pi - x) / (2 * Real.pi)⌉).toNat
decreasing_by
  have hpi := Real.pi_pos
  have h2 : (0 : ℝ) < 2 * Real.pi := by linarith
  have hkey : (-Real.pi - (x + 2 * Real.pi)) / (2 * Real.pi)
      = (-Real.pi - x) / (2 * Real.pi) - 1 := by field_simp; ring
  rw [hkey, show (1 : ℝ) = ((1 : ℤ) : ℝ) by norm_num, Int.ceil_sub_int]
  have hpos : 0 < ⌈(-Real.pi - x) / (2 * Real.pi)⌉ :=
    Int.ceil_pos.mpr (div_pos (by linarith) h2)
  omega

theorem wrapUp_le (x : ℝ) (hx : x ≤ Real.pi) : wrapUp x ≤ Real.pi := by
  by_cases h : x < -Real.pi
  · rw [wrapUp, dif_pos h]
    have hpi := Real.pi_pos
    exact wrapUp_le (x + 2 * Real.pi) (by linarith)
  · rw [wrapUp, dif_neg h]
    exact hx
termination_by (⌈(-Real.pi - x) / (2 * Real.pi)⌉).toNat
decreasing_by
  have hpi := Real.pi_pos
  have h2 : (0 : ℝ) < 2 * Real.pi := by linarith
  have hkey : (-Real.pi - (x + 2 * Real.pi)) / (2 * Real.pi)
      = (-Real.pi - x) / (2 * Real.pi) - 1 := by field_simp; ring
  rw [hkey, show (1 : ℝ) = ((1 : ℤ) : ℝ) by norm_num, Int.ceil_sub_int]
  have hpos : 0 < ⌈(-Real.pi - x) / (2 * Real.pi)⌉ :=
    Int.ceil_pos.mpr (div_pos (by linarith) h2)
  omega

theorem normalizeAngle_eq_self {a : ℝ} (h1 : -Real.pi ≤ a) (h2 : a ≤ Real.pi) :
    normalizeAngle a = a := by
  unfold normalizeAngle
  rw [wrapDown, dif_neg (not_lt.mpr h2), wrapUp, dif_neg (not_lt.mpr h1)]

theorem normalizeAngle_zero : normalizeAngle 0 = 0 :=
  normalizeAngle_eq_self (by linarith [Real.pi_pos]) (le_of_lt Real.pi_pos)

/-- C10: the angle-normalization loop (repeatedly subtracting 2π while the
value exceeds π, then repeatedly adding 2π while it is below −π) terminates on
every real input — `wrapDown`/`wrapUp` are total well-founded definitions —
and the resulting total function `normalizeAngle` lands in [−π, π]. -/
theorem normalizeAngle_total_mem_Icc (x : ℝ) :
    -Real.pi ≤ normalizeAngle x ∧ normalizeAngle x ≤ Real.pi :=
  ⟨wrapUp_ge _, wrapUp_le _ (wrapDown_le x)⟩

theorem col7_0 : col7 0 = 0 := rfl

theorem col7_1 : col7 1 = 1 := rfl

theorem col7_2 : col7 2 = 2 := rfl

theorem col7_3 : col7 3 = 3 := rfl

theorem col7_4 : col7 4 = 4 := rfl

theorem col7_5 : col7 5 = 5 := rfl

theorem col7_6 : col7 6 = 6 := rfl

theorem sqrt_lambda_n_aug_eq : sqrt_lambda_n_aug = Real.sqrt 3 := by
  have : lambda_ + n_aug_ = 3 := by norm_num [lambda_, n_aug_]
  rw [sqrt_lambda_n_aug, this]

theorem sqrt_lambda_n_aug_sq : sqrt_lambda_n_aug * sqrt_lambda_n_aug = 3 := by
  rw [sqrt_lambda_n_aug_eq]
  exact Real.mul_self_sqrt (by norm_num)

theorem weights_sum : ∑ i ∈ Finset.range 15, weightsN i = 1 := by
  simp only [Finset.sum_range_succ, Finset.sum_range_zero, weightsN, lambda_,
    n_aug_]
  norm_num

theorem sigma_mean_comp (xa : Fin 7 → ℝ) (L : Matrix (Fin 7) (Fin 7) ℝ)
    (j : Fin 7) :
    ∑ i ∈ Finset.range 15, weightsN i * XsigAug xa L i j = xa j := by
  simp only [Finset.sum_range_succ, Finset.sum_range_zero, weightsN, XsigAug,
    lambda_, n_aug_]
  norm_num
  ring

theorem sigma_mean (xa : Fin 7 → ℝ) (L : Matrix (Fin 7) (Fin 7) ℝ) :
    ∑ i ∈ Finset.range 15, weightsN i • XsigAug xa L i = xa := by
  funext j
  rw [Finset.sum_apply]
  simpa using sigma_mean_comp xa L j

theorem sigma_cov (xa : Fin 7 → ℝ) (L : Matrix (Fin 7) (Fin 7) ℝ) :
    ∑ i ∈ Finset.range 15, weightsN i •
      Matrix.vecMulVec (XsigAug xa L i - xa) (XsigAug xa L i - xa)
    = L * L.transpose := by
  ext j k
  rw [Matrix.sum_apply]
  simp only [Matrix.smul_apply, Matrix.vecMulVec_apply, Pi.sub_apply,
    smul_eq_mul, Matrix.mul_apply, Matrix.transpose_apply]
  rw [Fin.sum_univ_seven]
  simp only [Finset.sum_range_succ, Finset.sum_range_zero, weightsN, XsigAug,
    lambda_, n_aug_]
  norm_num [col7_0, col7_1, col7_2, col7_3, col7_4, col7_5, col7_6]
  linear_combination (1 / 3 * (L j 0 * L k 0 + L j 1 * L k 1 + L j 2 * L k 2
    + L j 3 * L k 3 + L j 4 * L k 4 + L j 5 * L k 5 + L j 6 * L k 6))
    * sqrt_lambda_n_aug_sq

/-- C5: for every augmented mean and every lower-triangular factor `L` with
`L·Lᵀ` equal to the augmented covariance, the 15 sigma points of ukf.cpp lines
183-188 together with the constructor weights have weights summing to 1,
weighted mean equal to the augmented mean, and weighted covariance of the
deviations equal to the augmented covariance (`λ = 3 − 7`, `λ + n_aug = 3`). -/
theorem sigma_points_recover_moments (xa : Fin 7 → ℝ)
    (L Pin : Matrix (Fin 7) (Fin 7) ℝ)
    (hlow : ∀ r c : Fin 7, r < c → L r c = 0)
    (hL : L * L.transpose = Pin) :
    (∑ i ∈ Finset.range 15, weightsN i = 1)
    ∧ (∑ i ∈ Finset.range 15, weightsN i • XsigAug xa L i = xa)
    ∧ (∑ i ∈ Finset.range 15, weightsN i •
        Matrix.vecMulVec (XsigAug xa L i - xa) (XsigAug xa L i - xa) = Pin) :=
  ⟨weights_sum, sigma_mean xa L, by rw [← hL]; exact sigma_cov xa L⟩

/-- Witness for C5 at the concrete input `xa = 0`, `L = 1`, `Pin = 1`. -/
theorem sigma_points_recover_moments_witness :
    (∑ i ∈ Finset.range 15, weightsN i = 1)
    ∧ (∑ i ∈ Finset.range 15, weightsN i • XsigAug 0 1 i = 0)
    ∧ (∑ i ∈ Finset.range 15, weightsN i •
        Matrix.vecMulVec (XsigAug 0 1 i - 0) (XsigAug 0 1 i - 0) = 1) :=
  sigma_points_recover_moments 0 1 1
    (fun r c h => Matrix.one_apply_ne (ne_of_lt h))
    (by rw [Matrix.transpose_one, mul_one])

theorem vec5_head (pt : Fin 7 → ℝ) (j : Fin 5) :
    ![pt 0, pt 1, pt 2, pt 3, pt 4] j = pt ⟨j.val, by omega⟩ := by
  fin_cases j <;> rfl

theorem motionModel_zero (pt : Fin 7 → ℝ) :
    motionModel pt 0 = ![pt 0, pt 1, pt 2, pt 3, pt 4] := by
  funext j
  fin_cases j <;> simp [motionModel]

theorem predXsig_zero_dt_comp (x5 : Fin 5 → ℝ) (L : Matrix (Fin 7) (Fin 7) ℝ)
    (i : ℕ) (j : Fin 5) :
    PredXsig x5 L 0 i j = XsigAug (augMean x5) L i ⟨j.val, by omega⟩ := by
  unfold PredXsig
  rw [motionModel_zero, vec5_head]

theorem predMean_zero_dt (x5 : Fin 5 → ℝ) (L : Matrix (Fin 7) (Fin 7) ℝ)
    (j : Fin 5) : PredMean x5 L 0 j = x5 j := by
  have hj : (j.val : ℕ) < 7 := by omega
  calc PredMean x5 L 0 j
      = ∑ i ∈ Finset.range 15,
          weightsN i * XsigAug (augMean x5) L i ⟨j.val, hj⟩ := by
        unfold PredMean
        exact Finset.sum_congr rfl (fun i _ => by
          rw [predXsig_zero_dt_comp])
    _ = augMean x5 ⟨j.val, hj⟩ := sigma_mean_comp _ L _
    _ = x5 j := by simp [augMean, j.isLt]

theorem prediction_x_zero_dt (s : UKFState) (L : Matrix (Fin 7) (Fin 7) ℝ) :
    (Prediction s L 0).x = s.x :=
  funext fun j => predMean_zero_dt s.x L j

/-- C6: for every state (in particular every initialized one) and every
factor `L`, `Prediction` with `Δt = 0` leaves the state mean exactly
unchanged. -/
theorem prediction_zero_dt_preserves_mean (s : UKFState)
    (L : Matrix (Fin 7) (Fin 7) ℝ) : (Prediction s L 0).x = s.x :=
  prediction_x_zero_dt s L

/-- C8: on the very first observation, a position observation initializes the
mean to `(x, y, 0.2, 0, 0)` with covariance `diag(0.01, 0.01, 1, 1, 1)`; a
range/bearing observation initializes the mean to
`(r·cosφ, r·sinφ, ṗ, φ, 0)` with covariance
`diag(0.01, 0.01, 0.01, 0.09, 0.09)`; the stored timestamp becomes the
observation timestamp, the filter is marked initialized, and the call returns
without running prediction or correction (`Xsig_pred_` is untouched). -/
theorem first_observation_initializes (x0 : Fin 5 → ℝ)
    (P0 : Matrix (Fin 5) (Fin 5) ℝ) (Xp0 : ℕ → Fin 5 → ℝ) (t0 t : ℤ)
    (raw : ℕ → ℝ) (L : Matrix (Fin 7) (Fin 7) ℝ) :
    ((ProcessMeasurement (UKF_construct x0 P0 Xp0 t0) L
        ⟨SensorType.LASER, t, raw⟩).x = ![raw 0, raw 1, 0.2, 0, 0]
    ∧ (ProcessMeasurement (UKF_construct x0 P0 Xp0 t0) L
        ⟨SensorType.LASER, t, raw⟩).P = P_init_laser
    ∧ (ProcessMeasurement (UKF_construct x0 P0 Xp0 t0) L
        ⟨SensorType.LASER, t, raw⟩).time_us = t
    ∧ (ProcessMeasurement (UKF_construct x0 P0 Xp0 t0) L
        ⟨SensorType.LASER, t, raw⟩).is_initialized = true
    ∧ (ProcessMeasurement (UKF_construct x0 P0 Xp0 t0) L
        ⟨SensorType.LASER, t, raw⟩).Xsig_pred = Xp0)
    ∧ ((ProcessMeasurement (UKF_construct x0 P0 Xp0 t0) L
        ⟨SensorType.RADAR, t, raw⟩).x
          = ![raw 0 * Real.cos (raw 1), raw 0 * Real.sin (raw 1),
              raw 2, raw 1, 0]
    ∧ (ProcessMeasurement (UKF_construct x0 P0 Xp0 t0) L
        ⟨SensorType.RADAR, t, raw⟩).P = P_init_radar
    ∧ (ProcessMeasurement (UKF_construct x0 P0 Xp0 t0) L
        ⟨SensorType.RADAR, t, raw⟩).time_us = t
    ∧ (ProcessMeasurement (UKF_construct x0 P0 Xp0 t0) L
        ⟨SensorType.RADAR, t, raw⟩).is_initialized = true
    ∧ (ProcessMeasurement (UKF_construct x0 P0 Xp0 t0) L
        ⟨SensorType.RADAR, t, raw⟩).Xsig_pred = Xp0) := by
  refine ⟨⟨?_, ?_, ?_, ?_, ?_⟩, ⟨?_, ?_, ?_, ?_, ?_⟩⟩ <;>
    simp [ProcessMeasurement, UKF_construct]

/-- C1 (code evaluation at the failing input): with the range/bearing sensor
configured off, the very first radar observation still flips
`is_initialized_` to true (ukf.cpp line 127 runs unconditionally), zeroes the
state mean (line 87), stores the timestamp, and leaves the never-written
covariance at its indeterminate construction value — the filter does not stay
uninitialized as the specification demands. -/
theorem disabled_radar_first_observation_still_initializes :
    ((ProcessMeasurement
        { UKF_construct 0 1 (fun _ _ => 0) 0 with use_radar := false } 1
        ⟨SensorType.RADAR, 7, fun _ => 2⟩).is_initialized = true)
    ∧ ((ProcessMeasurement
        { UKF_construct 0 1 (fun _ _ => 0) 0 with use_radar := false } 1
        ⟨SensorType.RADAR, 7, fun _ => 2⟩).x = fun _ => 0)
    ∧ ((ProcessMeasurement
        { UKF_construct 0 1 (fun _ _ => 0) 0 with use_radar := false } 1
        ⟨SensorType.RADAR, 7, fun _ => 2⟩).P = 1)
    ∧ ((ProcessMeasurement
        { UKF_construct 0 1 (fun _ _ => 0) 0 with use_radar := false } 1
        ⟨SensorType.RADAR, 7, fun _ => 2⟩).time_us = 7) := by
  refine ⟨?_, ?_, ?_, ?_⟩ <;> simp [ProcessMeasurement, UKF_construct]

/-- C4 counterexample: the configuration is not fixed after construction —
processing a first position observation mutates the radar enable flag
(`use_radar_ = false`, ukf.cpp line 91). -/
theorem laser_init_mutates_radar_flag :
    (ProcessMeasurement (UKF_construct 0 1 (fun _ _ => 0) 0) 1
        ⟨SensorType.LASER, 0, fun _ => 0⟩).use_radar = false
    ∧ (UKF_construct 0 1 (fun _ _ => 0) 0).use_radar = true := by
  constructor <;> simp [ProcessMeasurement, UKF_construct]

/-- C4 amended: the noise standard deviations and the laser enable flag are
never mutated by `ProcessMeasurement` (hence by `Prediction`/`UpdateLidar`/
`UpdateRadar`); the radar enable flag is preserved except that initializing
from an enabled position observation sets it to false. -/
theorem config_fixed_except_radar_flag_on_laser_init (s : UKFState)
    (L : Matrix (Fin 7) (Fin 7) ℝ) (m : Meas) :
    (ProcessMeasurement s L m).std_a = s.std_a
    ∧ (ProcessMeasurement s L m).std_yawdd = s.std_yawdd
    ∧ (ProcessMeasurement s L m).std_laspx = s.std_laspx
    ∧ (ProcessMeasurement s L m).std_laspy = s.std_laspy
    ∧ (ProcessMeasurement s L m).std_radr = s.std_radr
    ∧ (ProcessMeasurement s L m).std_radphi = s.std_radphi
    ∧ (ProcessMeasurement s L m).std_radrd = s.std_radrd
    ∧ (ProcessMeasurement s L m).use_laser = s.use_laser
    ∧ (ProcessMeasurement s L m).use_radar
        = (if s.is_initialized = false ∧ m.sensor = SensorType.LASER
              ∧ s.use_laser = true
           then false else s.use_radar) := by
  by_cases hinit : s.is_initialized = false
  · by_cases hs : m.sensor = SensorType.LASER ∧ s.use_laser = true
    · have hr : ¬(m.sensor = SensorType.RADAR) := by
        rw [hs.1]; intro hc; cases hc
      simp [ProcessMeasurement, hinit, hs, hr]
    · simp only [ProcessMeasurement, hinit, if_true, eq_self_iff_true]
      simp [hs, hinit]
      split_ifs <;> simp_all
  · simp [ProcessMeasurement, hinit, Prediction, UpdateLidar, UpdateRadar]
    split_ifs <;> simp

/-- C3 (code evaluation at the failing input): the lidar measurement-space
sigma points are the identity projection of the first two state components,
but — contrary to the claim — the code applies the while-loop angle
normalization to component 1 of the lidar innovation (ukf.cpp lines 338-339).
At predicted measurement mean `(3, 3)` and raw observation `(3, 7)` the
y-position residual 4 exceeds π and is wrapped to `4 − 2π ≠ 4`. -/
theorem lidar_innovation_wraps_y_residual :
    lidarInnov (fun n => if n = 0 then 3 else 7) ![3, 3] 1 = 4 - 2 * Real.pi
    ∧ (4 : ℝ) - 2 * Real.pi ≠ 4
    ∧ lidarInnov (fun n => if n = 0 then 3 else 7) ![3, 3] 0 = 0
    ∧ (∀ Xp : ℕ → Fin 5 → ℝ, ∀ i : ℕ,
        lidarZsig Xp i = ![Xp i 0, Xp i 1]) := by
  have hpi3 := Real.pi_gt_three
  have hpi4 : Real.pi < 4 := by linarith [Real.pi_lt_d2]
  refine ⟨?_, ?_, ?_, fun Xp i => rfl⟩
  · rw [lidarInnov, Function.update_same]
    norm_num
    unfold normalizeAngle
    rw [wrapDown, dif_pos hpi4, wrapDown, dif_neg (by linarith),
      wrapUp, dif_neg (by linarith)]
  · intro hc
    have := Real.pi_pos
    linarith
  · rw [lidarInnov, Function.update_noteq (by decide)]
    norm_num

/-- C9 counterexample: at the concrete sigma point `(p_x, p_y, v, ψ) =
(0, 0, 1, 0)` the range is zero and the range-rate computation of the
range/bearing projection divides by that zero range — there is no branch to a
non-singular formula, refuting the claim that every near-zero divisor is
guarded. -/
theorem radar_projection_divides_by_zero_range :
    rdot_checked 0 0 1 0 = none := by
  simp [rdot_checked]

/-- C9 amended: in the motion model the near-zero turn rate is guarded —
`|ψ̇| ≤ 0.001` branches to the division-free linear formula, and the curved
formula divides by `ψ̇` only under the guard `0.001 < |ψ̇|`, which forces
`ψ̇ ≠ 0`; the range/bearing projection has no such guard: whenever the range
is zero its range-rate computation divides by the zero range (`none`). -/
theorem near_zero_divisor_guards (pt : Fin 7 → ℝ) (dt : ℝ) :
    (|pt 4| ≤ 0.001 →
      motionModel pt dt 0
        = pt 0 + pt 2 * dt * Real.cos (pt 3)
          + 0.5 * pt 5 * dt * dt * Real.cos (pt 3)
      ∧ motionModel pt dt 1
        = pt 1 + pt 2 * dt * Real.sin (pt 3)
          + 0.5 * pt 5 * dt * dt * Real.sin (pt 3))
    ∧ (0.001 < |pt 4| →
      motionModel pt dt 0
        = pt 0 + pt 2 / pt 4 * (Real.sin (pt 3 + pt 4 * dt) - Real.sin (pt 3))
          + 0.5 * pt 5 * dt * dt * Real.cos (pt 3)
      ∧ pt 4 ≠ 0)
    ∧ (Real.sqrt (pt 0 * pt 0 + pt 1 * pt 1) = 0 →
      rdot_checked (pt 0) (pt 1) (pt 2) (pt 3) = none) := by
  refine ⟨fun h => ?_, fun h => ?_, fun h => ?_⟩
  · have hn : ¬(0.001 < |pt 4|) := not_lt.mpr h
    constructor <;> simp [motionModel, hn]
  · refine ⟨by simp [motionModel, h], fun h0 => ?_⟩
    rw [h0] at h
    simp at h
    linarith
  · simp [rdot_checked, h]

/-- Witness for C9's amended theorem at concrete sigma points. -/
theorem near_zero_divisor_guards_witness :
    (motionModel ![0, 0, 1, 0, 0, 0, 0] 1 0
      = (![0, 0, 1, 0, 0, 0, 0] : Fin 7 → ℝ) 0
        + (![0, 0, 1, 0, 0, 0, 0] : Fin 7 → ℝ) 2 * 1
          * Real.cos ((![0, 0, 1, 0, 0, 0, 0] : Fin 7 → ℝ) 3)
        + 0.5 * (![0, 0, 1, 0, 0, 0, 0] : Fin 7 → ℝ) 5 * 1 * 1
          * Real.cos ((![0, 0, 1, 0, 0, 0, 0] : Fin 7 → ℝ) 3))
    ∧ ((![0, 0, 1, 0, 1, 0, 0] : Fin 7 → ℝ) 4 ≠ 0)
    ∧ rdot_checked ((![0, 0, 1, 0, 0, 0, 0] : Fin 7 → ℝ) 0)
        ((![0, 0, 1, 0, 0, 0, 0] : Fin 7 → ℝ) 1)
        ((![0, 0, 1, 0, 0, 0, 0] : Fin 7 → ℝ) 2)
        ((![0, 0, 1, 0, 0, 0, 0] : Fin 7 → ℝ) 3) = none :=
  ⟨((near_zero_divisor_guards ![0, 0, 1, 0, 0, 0, 0] 1).1 (by norm_num)).1,
   ((near_zero_divisor_guards ![0, 0, 1, 0, 1, 0, 0] 1).2.1 (by norm_num)).2,
   (near_zero_divisor_guards ![0, 0, 1, 0, 0, 0, 0] 1).2.2
     (by norm_num)⟩

theorem vecMulVec_self_transpose (u : Fin 5 → ℝ) :
    (Matrix.vecMulVec u u).transpose = Matrix.vecMulVec u u := by
  ext a b
  simp [Matrix.vecMulVec_apply, mul_comm]

theorem predCov_transpose (x5 : Fin 5 → ℝ) (L : Matrix (Fin 7) (Fin 7) ℝ)
    (dt : ℝ) : (PredCov x5 L dt).transpose = PredCov x5 L dt := by
  unfold PredCov
  rw [Matrix.transpose_sum]
  exact Finset.sum_congr rfl fun i _ => by
    rw [Matrix.transpose_smul, vecMulVec_self_transpose]

theorem lidarS_transpose (s : UKFState) :
    (lidarS s).transpose = lidarS s := by
  unfold lidarS
  rw [Matrix.transpose_add, Matrix.transpose_sum]
  congr 1
  · exact Finset.sum_congr rfl fun i _ => by
      rw [Matrix.transpose_smul]
      congr 1
      ext a b
      simp [Matrix.vecMulVec_apply, mul_comm]
  · ext a b
    fin_cases a <;> fin_cases b <;> simp [lidarR]

theorem radarS_transpose (s : UKFState) :
    (radarS s).transpose = radarS s := by
  unfold radarS
  rw [Matrix.transpose_add, Matrix.transpose_sum]
  congr 1
  · exact Finset.sum_congr rfl fun i _ => by
      rw [Matrix.transpose_smul]
      congr 1
      ext a b
      simp [Matrix.vecMulVec_apply, mul_comm]
  · ext a b
    fin_cases a <;> fin_cases b <;>
      simp [radarR, Matrix.vecHead, Matrix.vecTail]

/-- C7 amended: the symmetry half of the invariant does hold — the covariance
written by the prediction recombination is always symmetric, and both
measurement corrections preserve symmetry of the covariance.  (Positive
semi-definiteness is NOT preserved; see the counterexample.) -/
theorem covariance_updates_preserve_symmetry :
    (∀ (s : UKFState) (L : Matrix (Fin 7) (Fin 7) ℝ) (dt : ℝ),
      ((Prediction s L dt).P).transpose = (Prediction s L dt).P)
    ∧ (∀ (s : UKFState) (m : Meas), s.P.transpose = s.P →
      ((UpdateLidar s m).P).transpose = (UpdateLidar s m).P)
    ∧ (∀ (s : UKFState) (m : Meas), s.P.transpose = s.P →
      ((UpdateRadar s m).P).transpose = (UpdateRadar s m).P) := by
  refine ⟨fun s L dt => predCov_transpose s.x L dt, fun s m h => ?_, fun s m h => ?_⟩
  · show (s.P - lidarK s * lidarS s * (lidarK s).transpose).transpose = _
    rw [Matrix.transpose_sub, h]
    congr 1
    rw [Matrix.transpose_mul, Matrix.transpose_mul, Matrix.transpose_transpose,
      lidarS_transpose, Matrix.mul_assoc]
  · show (s.P - radarK s * radarS s * (radarK s).transpose).transpose = _
    rw [Matrix.transpose_sub, h]
    congr 1
    rw [Matrix.transpose_mul, Matrix.transpose_mul, Matrix.transpose_transpose,
      radarS_transpose, Matrix.mul_assoc]

/-- Witness for C7's amended theorem at a concrete symmetric state. -/
theorem covariance_updates_preserve_symmetry_witness :
    (((Prediction (UKF_construct 0 1 (fun _ _ => 0) 0) 1 0).P).transpose
      = (Prediction (UKF_construct 0 1 (fun _ _ => 0) 0) 1 0).P)
    ∧ (((UpdateLidar (UKF_construct 0 1 (fun _ _ => 0) 0)
          ⟨SensorType.LASER, 0, fun _ => 0⟩).P).transpose
      = (UpdateLidar (UKF_construct 0 1 (fun _ _ => 0) 0)
          ⟨SensorType.LASER, 0, fun _ => 0⟩).P)
    ∧ (((UpdateRadar (UKF_construct 0 1 (fun _ _ => 0) 0)
          ⟨SensorType.RADAR, 0, fun _ => 0⟩).P).transpose
      = (UpdateRadar (UKF_construct 0 1 (fun _ _ => 0) 0)
          ⟨SensorType.RADAR, 0, fun _ => 0⟩).P) :=
  ⟨covariance_updates_preserve_symmetry.1 _ 1 0,
   covariance_updates_preserve_symmetry.2.1 _ _
     (by simp [UKF_construct]),
   covariance_updates_preserve_symmetry.2.2 _ _
     (by simp [UKF_construct])⟩

theorem L7_lower_triangular (r c : Fin 7) (h : r < c) : L7 r c = 0 := by
  have hv : r.val < c.val := h
  simp only [L7]
  rw [if_neg (by omega), if_neg (by omega)]

theorem L7_diag_pos (r : Fin 7) : 0 < L7 r r := by
  have hg : 0 < gg7 := by
    rw [gg7]
    positivity
  fin_cases r <;> simp [L7, eps7, del7] <;> positivity

set_option maxHeartbeats 2000000 in
theorem L7_factorizes : L7 * L7.transpose = P_aug s7 := by
  ext r c
  rw [Matrix.mul_apply, Fin.sum_univ_seven]
  fin_cases r <;> fin_cases c <;>
    · simp +decide [L7, P_aug, s7, P7, UKF_construct, Matrix.transpose_apply]
      try ring

set_option maxHeartbeats 4000000 in
theorem L7_pred_cov_entry_neg : (Prediction s7 L7 1).P 0 0 < 0 := by
  have hxa : augMean s7.x = ![0, 0, 1, 0, 0, 0, 0] := by
    funext j
    fin_cases j <;> rfl
  have hv0 : (![0, 0, 1, 0, 0, 0, 0] : Fin 7 → ℝ) 0 = 0 := rfl
  have hv1 : (![0, 0, 1, 0, 0, 0, 0] : Fin 7 → ℝ) 1 = 0 := rfl
  have hv2 : (![0, 0, 1, 0, 0, 0, 0] : Fin 7 → ℝ) 2 = 1 := rfl
  have hv3 : (![0, 0, 1, 0, 0, 0, 0] : Fin 7 → ℝ) 3 = 0 := rfl
  have hv4 : (![0, 0, 1, 0, 0, 0, 0] : Fin 7 → ℝ) 4 = 0 := rfl
  have hv5 : (![0, 0, 1, 0, 0, 0, 0] : Fin 7 → ℝ) 5 = 0 := rfl
  have hv6 : (![0, 0, 1, 0, 0, 0, 0] : Fin 7 → ℝ) 6 = 0 := rfl
  have h3ne : Real.sqrt 3 ≠ 0 := by positivity
  have hcosg : Real.cos (sqrt_lambda_n_aug * gg7) = 0 := by
    have hval : sqrt_lambda_n_aug * gg7 = Real.pi / 2 := by
      rw [sqrt_lambda_n_aug_eq, gg7]
      field_simp
      ring
    rw [hval, Real.cos_pi_div_two]
  have h32 : Real.sqrt 3 < 2 := by
    nlinarith [Real.sq_sqrt (show (0 : ℝ) ≤ 3 by norm_num),
      Real.sqrt_nonneg 3]
  have hsd : (0 : ℝ) ≤ sqrt_lambda_n_aug * del7 := by
    rw [sqrt_lambda_n_aug_eq, del7]
    positivity
  have hnb : ¬((0.001 : ℝ) < |sqrt_lambda_n_aug * del7|) := by
    rw [not_lt, abs_of_nonneg hsd, sqrt_lambda_n_aug_eq, del7]
    nlinarith [h32]
  have hnbneg : ¬((0.001 : ℝ) < |-(sqrt_lambda_n_aug * del7)|) := by
    rwa [abs_neg]
  have hp0 : PredXsig s7.x L7 1 0 0 = 1 := by
    show motionModel (XsigAug (augMean s7.x) L7 0) 1 0 = _
    rw [hxa]
    simp +decide [XsigAug, motionModel, L7, hv0, hv1, hv2, hv3, hv4, hv5, hv6,
      hcosg, Real.cos_zero, Real.cos_neg, hnb, hnbneg]
    try norm_num
  have hp1 : PredXsig s7.x L7 1 1 0 = sqrt_lambda_n_aug * eps7 := by
    show motionModel (XsigAug (augMean s7.x) L7 1) 1 0 = _
    rw [hxa]
    simp +decide [XsigAug, motionModel, L7, hv0, hv1, hv2, hv3, hv4, hv5, hv6,
      hcosg, Real.cos_zero, Real.cos_neg, hnb, hnbneg]
    try norm_num
  have hp2 : PredXsig s7.x L7 1 2 0 = 0 := by
    show motionModel (XsigAug (augMean s7.x) L7 2) 1 0 = _
    rw [hxa]
    simp +decide [XsigAug, motionModel, L7, hv0, hv1, hv2, hv3, hv4, hv5, hv6,
      hcosg, Real.cos_zero, Real.cos_neg, hnb, hnbneg]
    try norm_num
  have hp3 : PredXsig s7.x L7 1 3 0 = 0 := by
    show motionModel (XsigAug (augMean s7.x) L7 3) 1 0 = _
    rw [hxa]
    simp +decide [XsigAug, motionModel, L7, hv0, hv1, hv2, hv3, hv4, hv5, hv6,
      hcosg, Real.cos_zero, Real.cos_neg, hnb, hnbneg]
    try norm_num
  have hp4 : PredXsig s7.x L7 1 4 0 = 0 := by
    show motionModel (XsigAug (augMean s7.x) L7 4) 1 0 = _
    rw [hxa]
    simp +decide [XsigAug, motionModel, L7, hv0, hv1, hv2, hv3, hv4, hv5, hv6,
      hcosg, Real.cos_zero, Real.cos_neg, hnb, hnbneg]
    try norm_num
  have hp5 : PredXsig s7.x L7 1 5 0 = 1 := by
    show motionModel (XsigAug (augMean s7.x) L7 5) 1 0 = _
    rw [hxa]
    simp +decide [XsigAug, motionModel, L7, hv0, hv1, hv2, hv3, hv4, hv5, hv6,
      hcosg, Real.cos_zero, Real.cos_neg, hnb, hnbneg]
    try norm_num
  have hp6 : PredXsig s7.x L7 1 6 0
      = 1 + 0.5 * (sqrt_lambda_n_aug * del7) := by
    show motionModel (XsigAug (augMean s7.x) L7 6) 1 0 = _
    rw [hxa]
    simp +decide [XsigAug, motionModel, L7, hv0, hv1, hv2, hv3, hv4, hv5, hv6,
      hcosg, Real.cos_zero, Real.cos_neg, hnb, hnbneg]
    try norm_num
    try ring
  have hp7 : PredXsig s7.x L7 1 7 0 = 1 := by
    show motionModel (XsigAug (augMean s7.x) L7 7) 1 0 = _
    rw [hxa]
    simp +decide [XsigAug, motionModel, L7, hv0, hv1, hv2, hv3, hv4, hv5, hv6,
      hcosg, Real.cos_zero, Real.cos_neg, hnb, hnbneg]
    try norm_num
  have hp8 : PredXsig s7.x L7 1 8 0 = -(sqrt_lambda_n_aug * eps7) := by
    show motionModel (XsigAug (augMean s7.x) L7 8) 1 0 = _
    rw [hxa]
    simp +decide [XsigAug, motionModel, L7, hv0, hv1, hv2, hv3, hv4, hv5, hv6,
      hcosg, Real.cos_zero, Real.cos_neg, hnb, hnbneg]
    try norm_num
  have hp9 : PredXsig s7.x L7 1 9 0 = 0 := by
    show motionModel (XsigAug (augMean s7.x) L7 9) 1 0 = _
    rw [hxa]
    simp +decide [XsigAug, motionModel, L7, hv0, hv1, hv2, hv3, hv4, hv5, hv6,
      hcosg, Real.cos_zero, Real.cos_neg, hnb, hnbneg]
    try norm_num
  have hp10 : PredXsig s7.x L7 1 10 0 = 0 := by
    show motionModel (XsigAug (augMean s7.x) L7 10) 1 0 = _
    rw [hxa]
    simp +decide [XsigAug, motionModel, L7, hv0, hv1, hv2, hv3, hv4, hv5, hv6,
      hcosg, Real.cos_zero, Real.cos_neg, hnb, hnbneg]
    try norm_num
  have hp11 : PredXsig s7.x L7 1 11 0 = 0 := by
    show motionModel (XsigAug (augMean s7.x) L7 11) 1 0 = _
    rw [hxa]
    simp +decide [XsigAug, motionModel, L7, hv0, hv1, hv2, hv3, hv4, hv5, hv6,
      hcosg, Real.cos_zero, Real.cos_neg, hnb, hnbneg]
    try norm_num
  have hp12 : PredXsig s7.x L7 1 12 0 = 1 := by
    show motionModel (XsigAug (augMean s7.x) L7 12) 1 0 = _
    rw [hxa]
    simp +decide [XsigAug, motionModel, L7, hv0, hv1, hv2, hv3, hv4, hv5, hv6,
      hcosg, Real.cos_zero, Real.cos_neg, hnb, hnbneg]
    try norm_num
  have hp13 : PredXsig s7.x L7 1 13 0
      = 1 - 0.5 * (sqrt_lambda_n_aug * del7) := by
    show motionModel (XsigAug (augMean s7.x) L7 13) 1 0 = _
    rw [hxa]
    simp +decide [XsigAug, motionModel, L7, hv0, hv1, hv2, hv3, hv4, hv5, hv6,
      hcosg, Real.cos_zero, Real.cos_neg, hnb, hnbneg]
    try norm_num
    try ring
  have hp14 : PredXsig s7.x L7 1 14 0 = 1 := by
    show motionModel (XsigAug (augMean s7.x) L7 14) 1 0 = _
    rw [hxa]
    simp +decide [XsigAug, motionModel, L7, hv0, hv1, hv2, hv3, hv4, hv5, hv6,
      hcosg, Real.cos_zero, Real.cos_neg, hnb, hnbneg]
    try norm_num
  have hmean : PredMean s7.x L7 1 0 = -(1 / 3) := by
    unfold PredMean
    simp only [Finset.sum_range_succ, Finset.sum_range_zero]
    rw [hp0, hp1, hp2, hp3, hp4, hp5, hp6, hp7, hp8, hp9, hp10, hp11, hp12,
      hp13, hp14]
    norm_num [weightsN, lambda_, n_aug_]
    try ring
  show PredCov s7.x L7 1 0 0 < 0
  unfold PredCov
  rw [Matrix.sum_apply]
  simp only [Matrix.smul_apply, smul_eq_mul, Matrix.vecMulVec_apply, angNorm3,
    Function.update_noteq (show (0 : Fin 5) ≠ 3 by decide)]
  simp only [Finset.sum_range_succ, Finset.sum_range_zero]
  rw [hp0, hp1, hp2, hp3, hp4, hp5, hp6, hp7, hp8, hp9, hp10, hp11, hp12,
    hp13, hp14, hmean]
  have hsq : sqrt_lambda_n_aug ^ 2 = 3 := by
    rw [sq]
    exact sqrt_lambda_n_aug_sq
  norm_num [weightsN, lambda_, n_aug_, eps7, del7]
  nlinarith [hsq]

/-- C7 counterexample: positive semi-definiteness is NOT preserved by the
prediction recombination.  `s7` is an initialized state whose covariance `P7`
is symmetric positive definite — `L7` is its (unique) lower-triangular
Cholesky factor with positive diagonal, certified here by
`L7·L7ᵀ = P_aug s7` — yet after `Prediction` with `Δt = 1` the state
covariance has the negative diagonal entry `P(0,0) = −4/9 + 1/2000² +
(1/2000)²/4 < 0`.  The center sigma-point weight `λ/(λ+7) = −4/3` makes the
recombination indefinite.  (Lower-triangularity and positivity of the
diagonal of `L7` are `L7_lower_triangular` and `L7_diag_pos`.) -/
theorem prediction_covariance_not_psd :
    L7 * L7.transpose = P_aug s7 ∧ (Prediction s7 L7 1).P 0 0 < 0 :=
  ⟨L7_factorizes, L7_pred_cov_entry_neg⟩

set_option maxHeartbeats 2000000 in
theorem LC2_factorizes : LC2 * LC2.transpose = P_aug sC2 := by
  ext r c
  rw [Matrix.mul_apply, Fin.sum_univ_seven]
  fin_cases r <;> fin_cases c <;>
    · simp +decide [LC2, P_aug, sC2, PC2, UKF_construct, Matrix.transpose_apply]
      try norm_num

theorem sC2_zpred :
    lidar_zpred (Prediction sC2 LC2 0).Xsig_pred = fun _ => 0 := by
  funext j
  show lidar_zpred (PredXsig sC2.x LC2 0) j = 0
  unfold lidar_zpred
  fin_cases j <;>
    · simp only [Finset.sum_range_succ, Finset.sum_range_zero]
      simp +decide [lidarZsig, predXsig_zero_dt_comp, XsigAug, LC2, augMean,
        sC2, UKF_construct, weightsN, lambda_, n_aug_]
      try ring

set_option maxHeartbeats 2000000 in
theorem sC2_Tc00 : lidarTc (Prediction sC2 LC2 0) 0 0 = 1 := by
  unfold lidarTc
  rw [Matrix.sum_apply]
  simp only [Matrix.smul_apply, smul_eq_mul, Matrix.vecMulVec_apply, angNorm3,
    Function.update_noteq (show (0 : Fin 5) ≠ 3 by decide), lidar_zdiff,
    sC2_zpred, prediction_x_zero_dt]
  simp only [Finset.sum_range_succ, Finset.sum_range_zero]
  simp +decide [lidarZsig, Prediction, predXsig_zero_dt_comp, XsigAug, LC2,
    augMean, sC2, UKF_construct, weightsN, lambda_, n_aug_]
  linear_combination (1 / 3 : ℝ) * sqrt_lambda_n_aug_sq

set_option maxHeartbeats 2000000 in
theorem sC2_Tc01 : lidarTc (Prediction sC2 LC2 0) 0 1 = 0 := by
  unfold lidarTc
  rw [Matrix.sum_apply]
  simp only [Matrix.smul_apply, smul_eq_mul, Matrix.vecMulVec_apply, angNorm3,
    Function.update_noteq (show (0 : Fin 5) ≠ 3 by decide), lidar_zdiff,
    sC2_zpred, prediction_x_zero_dt]
  simp only [Finset.sum_range_succ, Finset.sum_range_zero]
  simp +decide [lidarZsig, Prediction, predXsig_zero_dt_comp, XsigAug, LC2,
    augMean, sC2, UKF_construct, weightsN, lambda_, n_aug_]

set_option maxHeartbeats 2000000 in
theorem sC2_S :
    lidarS (Prediction sC2 LC2 0) = !![409 / 400, 0; 0, 109 / 400] := by
  unfold lidarS
  ext a b
  rw [Matrix.add_apply, Matrix.sum_apply]
  simp only [Matrix.smul_apply, smul_eq_mul, Matrix.vecMulVec_apply,
    lidar_zdiff, sC2_zpred]
  fin_cases a <;> fin_cases b
  · simp only [Finset.sum_range_succ, Finset.sum_range_zero]
    simp +decide [lidarZsig, Prediction, predXsig_zero_dt_comp, XsigAug, LC2,
      augMean, sC2, UKF_construct, weightsN, lambda_, n_aug_, lidarR]
    linear_combination (1 / 3 : ℝ) * sqrt_lambda_n_aug_sq
  · simp only [Finset.sum_range_succ, Finset.sum_range_zero]
    simp +decide [lidarZsig, Prediction, predXsig_zero_dt_comp, XsigAug, LC2,
      augMean, sC2, UKF_construct, weightsN, lambda_, n_aug_, lidarR]
  · simp only [Finset.sum_range_succ, Finset.sum_range_zero]
    simp +decide [lidarZsig, Prediction, predXsig_zero_dt_comp, XsigAug, LC2,
      augMean, sC2, UKF_construct, weightsN, lambda_, n_aug_, lidarR]
  · simp only [Finset.sum_range_succ, Finset.sum_range_zero]
    simp +decide [lidarZsig, Prediction, predXsig_zero_dt_comp, XsigAug, LC2,
      augMean, sC2, UKF_construct, weightsN, lambda_, n_aug_, lidarR]
    linear_combination (1 / 12 : ℝ) * sqrt_lambda_n_aug_sq

theorem sC2_Sinv :
    (!![409 / 400, 0; 0, (109 / 400 : ℝ)])⁻¹
      = !![400 / 409, 0; 0, 400 / 109] := by
  apply Matrix.inv_eq_right_inv
  ext a b
  rw [Matrix.mul_apply, Fin.sum_univ_two]
  fin_cases a <;> fin_cases b <;> norm_num

/-- C2 (code evaluation at the failing input): with the laser sensor
configured off and the filter already initialized (state mean 0, symmetric
positive-definite covariance `PC2`, Cholesky factor `LC2` certified by
`LC2·LC2ᵀ = P_aug sC2`), a lidar observation at the same timestamp is NOT
ignored: `ProcessMeasurement` runs the prediction and the lidar correction
(the post-initialization dispatch of ukf.cpp lines 141-146 never consults
`use_laser_`/`use_radar_`) and moves the state mean from 0 to `400/409`. -/
theorem disabled_sensor_observation_still_updates_state :
    sC2.use_laser = false ∧ sC2.is_initialized = true
    ∧ LC2 * LC2.transpose = P_aug sC2
    ∧ sC2.x 0 = 0
    ∧ (ProcessMeasurement sC2 LC2 mC2).x 0 = 400 / 409 := by
  refine ⟨rfl, rfl, LC2_factorizes, rfl, ?_⟩
  have hdt : ((mC2.timestamp - sC2.time_us : ℤ) : ℝ) / 1000000 = 0 := by
    norm_num [mC2, sC2, UKF_construct]
  have hred : (ProcessMeasurement sC2 LC2 mC2).x
      = (UpdateLidar (Prediction sC2 LC2 0) mC2).x := by
    unfold ProcessMeasurement
    rw [if_neg (by norm_num [sC2])]
    simp +decide [hdt, mC2, sC2, UKF_construct]
  rw [hred]
  simp only [UpdateLidar]
  rw [Pi.add_apply, prediction_x_zero_dt, sC2_zpred]
  have hinn0 : lidarInnov mC2.raw (fun _ => 0) 0 = 1 := by
    rw [lidarInnov, Function.update_noteq (by decide)]
    norm_num [mC2]
  have hinn1 : lidarInnov mC2.raw (fun _ => 0) 1 = 1 := by
    rw [lidarInnov, Function.update_same]
    norm_num [mC2]
    exact normalizeAngle_eq_self (by linarith [Real.pi_gt_three])
      (by linarith [Real.pi_gt_three])
  have hK00 : lidarK (Prediction sC2 LC2 0) 0 0 = 400 / 409 := by
    unfold lidarK
    rw [sC2_S, sC2_Sinv, Matrix.mul_apply, Fin.sum_univ_two, sC2_Tc00,
      sC2_Tc01]
    norm_num
  have hK01 : lidarK (Prediction sC2 LC2 0) 0 1 = 0 := by
    unfold lidarK
    rw [sC2_S, sC2_Sinv, Matrix.mul_apply, Fin.sum_univ_two, sC2_Tc00,
      sC2_Tc01]
    norm_num
  simp only [Matrix.mulVec, Matrix.dotProduct, Fin.sum_univ_two]
  rw [hinn0, hinn1, hK00, hK01]
  norm_num [sC2, UKF_construct]
